import Mathlib

/-!
Verification of the Rusty-Webex core: the command parser (src/parser.rs),
the websocket client (src/websocket.rs) and the Webex websocket runtime
(src/lib.rs), embedded shallowly and checked against the specification.
-/

namespace RustyWebex

/-! ## Command parser (src/parser.rs) -/

/-- An argument descriptor: `RequiredArgument`/`OptionalArgument` both carry a
`name`; `is_required` returns `true` for the former and `false` for the latter
(the phantom type parameter carries no runtime data and is dropped). -/
structure Arg where
  name : String
  required : Bool
deriving Repr, DecidableEq

/-- Outcome of `Parser::parse`.  The Rust signature is
`Result<Command, Error>`; a run can also panic (index out of bounds on
`parts[1]`, or `Option::unwrap` on `None`), which we record explicitly.
The `callback` reference of `Command` carries no data relevant here and is
omitted. -/
inductive ParseResult where
  | ok (command : String) (requiredArguments optionalArguments : List (String × String))
  | err (msg : String)
  | panicked (msg : String)
deriving Repr, DecidableEq

/-- `Parser.commands`: a `HashMap<String, (Callback, Vec<Box<dyn Argument>>)>`,
modelled as an association list with unique keys (callbacks omitted). -/
structure Parser where
  commands : List (String × List Arg)
deriving Repr, DecidableEq

/-- `Parser::new`. -/
def Parser.new : Parser := ⟨[]⟩

/-- `Parser::add_command`: `HashMap::insert`, which replaces any existing
entry for the same key. -/
def Parser.addCommand (p : Parser) (command : String) (args : List Arg) : Parser :=
  ⟨(command, args) :: (p.commands.filter fun kv => kv.1 ≠ command)⟩

/-- `self.commands.get(key)` restricted to the argument vector. -/
def Parser.findCommand (p : Parser) (key : String) : Option (List Arg) :=
  (p.commands.find? fun kv => kv.1 == key).map Prod.snd

/-- Rust `str::split(' ')` over the character list: consecutive separators
produce empty tokens and the empty string yields `[""]`. -/
def splitSpaceChars : List Char → List String
  | [] => [""]
  | c :: cs =>
    let rest := splitSpaceChars cs
    if c = ' ' then "" :: rest
    else
      match rest with
      | [] => [String.mk [c]]
      | t :: ts => String.mk (c :: t.data) :: ts

/-- `plain_string_message.split(' ').collect::<Vec<&str>>()`. -/
def splitSpace (s : String) : List String :=
  splitSpaceChars s.data

/-- The binding loop of `Parser::parse`: for `index in 0..num_parts - 2` it
pairs `command_structure.1[index]` with `parts[index]` (note: `parts[index]`,
starting at the message's first token, not after the keyword), pushing onto
the required or optional vector according to `is_required`, in index order. -/
def bindArgs : List Arg → List String → List (String × String) × List (String × String)
  | [], _ => ([], [])
  | _ :: _, [] => ([], [])
  | a :: args, t :: toks =>
    let rest := bindArgs args toks
    if a.required then ((a.name, t) :: rest.1, rest.2)
    else (rest.1, (a.name, t) :: rest.2)

/-- `Parser::parse` (src/parser.rs lines 172-233), embedded as executed.
The three error sites build an `Err` value but do not `return` it (the
statements end in `;` and the value is discarded), so control falls through:
with fewer than two tokens, `parts[1]` then panics; with an unregistered
keyword, `.get(parts[1]).unwrap()` panics; and when
`arguments_len < num_parts - 2` the MISSING_ARGS `Err` is discarded and an
`Ok` command with empty argument lists is returned. -/
def Parser.parse (p : Parser) (plainStringMessage : String) : ParseResult :=
  let parts := splitSpace plainStringMessage
  let numParts := parts.length
  if 2 ≤ numParts then
    let keyword := parts.getD 1 ""
    match p.findCommand keyword with
    | none => .panicked "called Option unwrap on a None value"
    | some args =>
      let argumentsLen := args.length
      if argumentsLen ≥ numParts - 2 then
        let binds := bindArgs (args.take (numParts - 2)) (parts.take (numParts - 2))
        .ok keyword binds.1 binds.2
      else
        .ok keyword [] []
  else
    .panicked "index out of bounds"

/-- Command table with `"roll"` registered with one required argument
`sides` (the spec's first scenario). -/
def rollTable : Parser :=
  Parser.new.addCommand "roll" [{ name := "sides", required := true }]

/-- Command table with `"poll"` registered with required `topic` and
optional `duration` (the spec's second scenario). -/
def pollTable : Parser :=
  Parser.new.addCommand "poll"
    [{ name := "topic", required := true }, { name := "duration", required := false }]

/-- Claim C1: the spec says that with fewer than `n` positional tokens after
the keyword `parse` fails with `MissingArguments` and with `≥ n` tokens it
returns exactly `n` bindings.  The code diverges at both concrete scenario
inputs: the MISSING_ARGS `Err` is built but never returned and the arity
guard `arguments_len >= num_parts - 2` is inverted, so `"@bot poll budget"`
(one token for two descriptors) yields a partial `Ok` binding
`("topic", "@bot")`, and `"@bot roll 10 20"` (two tokens for one descriptor)
yields an `Ok` command with no bindings at all. -/
theorem c1_parse_arity_divergence :
    pollTable.parse "@bot poll budget" = ParseResult.ok "poll" [("topic", "@bot")] [] ∧
    rollTable.parse "@bot roll 10 20" = ParseResult.ok "roll" [] [] := by
  decide

/-- Claim C2 counterexample: parsing `"@bot roll 20"` with `"roll"` registered
with one required argument `sides` does not return the binding
`("sides", "20")` the claim states: the binding loop reads `parts[index]`
starting at the message's first token. -/
theorem c2_roll_scenario_counterexample :
    rollTable.parse "@bot roll 20" ≠ ParseResult.ok "roll" [("sides", "20")] [] := by
  decide

/-- Claim C2 amended: the parse returns command `"roll"`, required list
`[("sides", "@bot")]` (the value is the mention token, token index 0) and an
empty optional list. -/
theorem c2_roll_scenario_amended :
    rollTable.parse "@bot roll 20" = ParseResult.ok "roll" [("sides", "@bot")] [] := by
  decide

/-- Claim C3: the spec says parsing an empty or single-token string always
yields `NoCommand`.  In the code the NO_CMD `Err` is built but not returned
(the statement ends in `;`), control falls through, and `parts[1]` panics
with an index-out-of-bounds for every command table. -/
theorem c3_no_command_panics (p : Parser) :
    p.parse "" = ParseResult.panicked "index out of bounds" ∧
    p.parse "hello" = ParseResult.panicked "index out of bounds" := by
  constructor <;> rfl

/-- Claim C4: the spec says a string whose second token is unregistered always
yields `UnknownCommand`.  In the code the INVALID_CMD `Err` is built but not
returned, and `self.commands.get(parts[1]).unwrap()` then panics on `None`,
for every command table not containing the keyword. -/
theorem c4_unknown_command_panics (p : Parser) (h : p.findCommand "foo" = none) :
    p.parse "@bot foo 20" = ParseResult.panicked "called Option unwrap on a None value" := by
  have hs : splitSpace "@bot foo 20" = ["@bot", "foo", "20"] := by decide
  simp [Parser.parse, hs, h]

/-- Claim C4 witness: the table with only `"roll"` registered panics on the
input `"@bot foo 20"`. -/
theorem c4_unknown_command_panics_witness :
    rollTable.parse "@bot foo 20" = ParseResult.panicked "called Option unwrap on a None value" :=
  c4_unknown_command_panics rollTable (by decide)

/-! ## WebSocket client (src/websocket.rs) -/

/-- `WebSocketError` (src/error.rs): `AwayError` is the spec's `PeerAway`
("Web Socket went away.") and `NotDefined` is the spec's `NotReady`
("Cannot performed the function as no stream is defined."). -/
inductive WebSocketError where
  | AwayError
  | NotDefined
deriving Repr, DecidableEq

/-- `tungstenite::Message` variants as matched by the receive loops; only
`Text` carries a payload the code looks at. -/
inductive Message where
  | text (payload : String)
  | binary
  | ping
  | pong
  | close
  | frame
deriving Repr, DecidableEq

/-- One item yielded by `stream.next()`: `Some(Ok(msg))` or `Some(Err(_))`.
A stream is the list of its items; once the list is exhausted every further
`next()` returns `None`. -/
inductive StreamItem where
  | ok (msg : Message)
  | readError
deriving Repr, DecidableEq

/-- `WebSocketClient` (src/websocket.rs lines 132-139).  The stream field
holds the pending inbound items; the `_on_message`/`_on_card_action`
function-pointer fields carry no state and are omitted, as is the always-None
`_device_info`. -/
structure WebSocketClient where
  isEstablished : Bool
  websocketStream : Option (List StreamItem)
  isSecure : Bool
deriving Repr, DecidableEq

/-- `WebSocketClient::new`: `_is_established: false`, `_websocket_stream: None`. -/
def WebSocketClient.new (isSecure : Bool) : WebSocketClient :=
  { isEstablished := false, websocketStream := none, isSecure := isSecure }

/-- `Client::connect` for `WebSocketClient`: stores the freshly connected
stream (whose future items the environment supplies) and returns `Ok(())`;
`_is_established` is not touched. -/
def WebSocketClient.connect (c : WebSocketClient) (newStream : List StreamItem) :
    Except WebSocketError Unit × WebSocketClient :=
  (Except.ok (), { c with websocketStream := some newStream })

/-- Result of `WebSocketClient::send`: the returned `Result`, the client state
afterwards, and the texts actually written to the socket. -/
structure SendResult where
  result : Except WebSocketError Unit
  client : WebSocketClient
  sentText : List String
deriving Repr

/-- `Client::send` (src/websocket.rs lines 218-229): only when
`_is_established` holds and a stream is present is the text written (the
stream is moved out by `take()` and not put back); otherwise
`Err(NotDefined)` is returned at once. -/
def WebSocketClient.send (c : WebSocketClient) (text : String) : SendResult :=
  if c.isEstablished then
    match c.websocketStream with
    | some _ =>
      { result := Except.ok (), client := { c with websocketStream := none },
        sentText := [text] }
    | none => { result := Except.error WebSocketError.NotDefined, client := c, sentText := [] }
  else
    { result := Except.error WebSocketError.NotDefined, client := c, sentText := [] }

/-- How the receive loop of `listen_for_messages` ends: the shared `running`
flag observed false (`Ok(self)`), a stream read error (`Err(AwayError)`), or
the stream ended, in which case `next()` yields `None` forever and the loop
never exits (the `None` arm only logs). -/
inductive ListenOutcome where
  | shutdown
  | awayError
  | stuck
deriving Repr, DecidableEq

/-- The receive loop of `listen_for_messages` (src/websocket.rs lines
249-274): per iteration it first polls the shared `running` flag (constant
here, since nothing in the crate mutates it), then matches the next stream
item: a read error returns `Err(AwayError)`; a `Text` frame invokes the
callback, if one was passed, with the decoded payload; `Binary`, `Ping`,
`Pong`, `Close` and `Frame` are only logged.  Returns the outcome and the
payloads passed to the callback, in order. -/
def listenLoop (running callbackPresent : Bool) :
    List StreamItem → ListenOutcome × List String
  | [] => if running then (ListenOutcome.stuck, []) else (ListenOutcome.shutdown, [])
  | item :: rest =>
    if running then
      match item with
      | StreamItem.readError => (ListenOutcome.awayError, [])
      | StreamItem.ok (Message.text payload) =>
        let next := listenLoop running callbackPresent rest
        (next.1, if callbackPresent then payload :: next.2 else next.2)
      | StreamItem.ok _ => listenLoop running callbackPresent rest
    else (ListenOutcome.shutdown, [])

/-- How `listen_for_messages` ends: `Ok(self)`, `Err(e)`, or never (the
receive loop is stuck on an exhausted stream). -/
inductive ListenTermination where
  | ok
  | err (e : WebSocketError)
  | stuck
deriving Repr, DecidableEq

/-- Result of `listen_for_messages`: the termination, the callback
invocations, and the client returned on the `Ok(self)` path (`self` is moved
into the call and dropped on the `Err` paths). -/
structure ListenResult where
  termination : ListenTermination
  invocations : List String
  client : Option WebSocketClient
deriving Repr

/-- `Client::listen_for_messages` (src/websocket.rs lines 242-279): when
`_is_established` is false, or no stream is present, it returns
`Err(NotDefined)` without entering the loop; otherwise the stream is moved
out by `take()` and the receive loop runs. -/
def WebSocketClient.listenForMessages (c : WebSocketClient)
    (running callbackPresent : Bool) : ListenResult :=
  if c.isEstablished then
    match c.websocketStream with
    | some items =>
      let r := listenLoop running callbackPresent items
      { termination :=
          match r.1 with
          | ListenOutcome.shutdown => ListenTermination.ok
          | ListenOutcome.awayError => ListenTermination.err WebSocketError.AwayError
          | ListenOutcome.stuck => ListenTermination.stuck,
        invocations := r.2,
        client :=
          match r.1 with
          | ListenOutcome.shutdown => some { c with websocketStream := none }
          | _ => none }
    | none => { termination := ListenTermination.err WebSocketError.NotDefined,
                invocations := [], client := none }
  else
    { termination := ListenTermination.err WebSocketError.NotDefined,
      invocations := [], client := none }

/-- `Client::close` (src/websocket.rs lines 289-303): when `_is_established`
holds and a stream is present, the Close-frame send future is built but
dropped without being awaited, one inbound item is drained, and `Ok(())` is
returned; otherwise `Err(NotDefined)`. -/
def WebSocketClient.close (c : WebSocketClient) :
    Except WebSocketError Unit × WebSocketClient :=
  if c.isEstablished then
    match c.websocketStream with
    | some _ => (Except.ok (), { c with websocketStream := none })
    | none => (Except.error WebSocketError.NotDefined, c)
  else
    (Except.error WebSocketError.NotDefined, c)

/-- States a `WebSocketClient` can actually be in: built by `new` and
transformed by the operations of the `Client` impl. -/
inductive Reachable : WebSocketClient → Prop
  | new (isSecure : Bool) : Reachable (WebSocketClient.new isSecure)
  | connect (c : WebSocketClient) (s : List StreamItem) :
      Reachable c → Reachable (c.connect s).2
  | send (c : WebSocketClient) (t : String) :
      Reachable c → Reachable (c.send t).client
  | listen (c c' : WebSocketClient) (running cb : Bool) :
      Reachable c → (c.listenForMessages running cb).client = some c' → Reachable c'
  | close (c : WebSocketClient) : Reachable c → Reachable (c.close).2

/-- No operation of the `Client` impl ever assigns `_is_established = true`:
it is false in every reachable state. -/
theorem reachable_not_established (c : WebSocketClient) (h : Reachable c) :
    c.isEstablished = false := by
  induction h with
  | new s => rfl
  | connect c s _ ih => exact ih
  | send c t _ ih => simp [WebSocketClient.send, ih]
  | listen c c' running cb _ hc ih =>
    simp [WebSocketClient.listenForMessages, ih] at hc
  | close c _ ih => simp [WebSocketClient.close, ih]

/-- Claim C5: before connect/authentication has completed
(`_is_established` is false), `send` returns the `NotDefined` error (the
spec's `NotReady`) at once: nothing is written to the socket, the client is
unchanged, and no success is reported. -/
theorem c5_send_before_listening_not_ready (c : WebSocketClient) (text : String)
    (h : c.isEstablished = false) :
    (c.send text).result = Except.error WebSocketError.NotDefined ∧
    (c.send text).sentText = [] ∧
    (c.send text).client = c := by
  simp [WebSocketClient.send, h]

/-- Claim C5 witness: a freshly constructed insecure client refuses
`send "hello"`. -/
theorem c5_send_before_listening_not_ready_witness :
    ((WebSocketClient.new false).send "hello").result =
        Except.error WebSocketError.NotDefined ∧
    ((WebSocketClient.new false).send "hello").sentText = [] ∧
    ((WebSocketClient.new false).send "hello").client = WebSocketClient.new false :=
  c5_send_before_listening_not_ready (WebSocketClient.new false) "hello" rfl

/-- Claim C6: `_is_established` starts false and no operation assigns it
true, so in every reachable client state `send`, `listen_for_messages` and
`close` return `Err(NotDefined)`, the receive loop body is never entered
(the `NotDefined` return happens before the loop) and no callback is ever
invoked. -/
theorem c6_never_established (c : WebSocketClient) (h : Reachable c) :
    c.isEstablished = false ∧
    (∀ t : String, (c.send t).result = Except.error WebSocketError.NotDefined) ∧
    (∀ running cb : Bool,
      (c.listenForMessages running cb).termination =
          ListenTermination.err WebSocketError.NotDefined ∧
      (c.listenForMessages running cb).invocations = []) ∧
    (c.close).1 = Except.error WebSocketError.NotDefined := by
  have hest := reachable_not_established c h
  refine ⟨hest, ?_, ?_, ?_⟩
  · intro t
    simp [WebSocketClient.send, hest]
  · intro running cb
    simp [WebSocketClient.listenForMessages, hest]
  · simp [WebSocketClient.close, hest]

/-- Claim C6 witness: a client fresh from `new` (reachable by construction)
refuses all three operations and invokes no callback. -/
theorem c6_never_established_witness :
    ((WebSocketClient.new true).send "hi").result =
        Except.error WebSocketError.NotDefined ∧
    ((WebSocketClient.new true).listenForMessages true true).termination =
        ListenTermination.err WebSocketError.NotDefined ∧
    ((WebSocketClient.new true).listenForMessages true true).invocations = [] ∧
    ((WebSocketClient.new true).close).1 = Except.error WebSocketError.NotDefined := by
  obtain ⟨-, hsend, hlisten, hclose⟩ :=
    c6_never_established (WebSocketClient.new true) (Reachable.new true)
  exact ⟨hsend "hi", (hlisten true true).1, (hlisten true true).2, hclose⟩

/-- Claim C7 counterexample: a client whose stream delivers a Close control
frame followed by a Text frame still invokes the callback for the later Text
frame, so the receive loop did not exit when the Close frame was received
(the claim, which says the loop exits there without invoking `onText`, would
force an empty invocation list). -/
theorem c7_close_frame_counterexample :
    ¬ ((WebSocketClient.mk true
          (some [StreamItem.ok Message.close, StreamItem.ok (Message.text "after-close")])
          true).listenForMessages true true).invocations = [] := by
  decide

/-- Claim C7 amended: when a Close control frame is received the receive
loop only logs it and continues with the remaining stream items exactly as
if the frame had not been there; in particular the callback is not invoked
for that frame and no state transition happens. -/
theorem c7_close_frame_continues (cb : Bool) (rest : List StreamItem) :
    listenLoop true cb (StreamItem.ok Message.close :: rest) = listenLoop true cb rest := by
  simp [listenLoop]

/-- Payloads of the Text frames among the given stream items, in order. -/
def textPayloads (items : List StreamItem) : List String :=
  items.filterMap fun i =>
    match i with
    | StreamItem.ok (Message.text s) => some s
    | _ => none

/-- The receive loop processes items in order until the first read error:
every Text frame before it invokes the callback with its payload, all other
frames are skipped, and the error ends the loop with `awayError`. -/
theorem listenLoop_reaches_error (pre post : List StreamItem)
    (h : StreamItem.readError ∉ pre) :
    listenLoop true true (pre ++ StreamItem.readError :: post) =
      (ListenOutcome.awayError, textPayloads pre) := by
  induction pre with
  | nil => simp [listenLoop, textPayloads]
  | cons i rest ih =>
    have hrest : StreamItem.readError ∉ rest := fun hm => h (List.mem_cons_of_mem i hm)
    cases i with
    | readError => exact absurd (List.mem_cons_self _ _) h
    | ok msg => cases msg <;> simp [listenLoop, textPayloads, ih hrest]

/-- Claim C8: while the receive loop of `listen_for_messages` runs, a stream
read error terminates the loop and is surfaced as `Err(AwayError)` (the
spec's `PeerAway`); every inbound Text frame up to that point invokes the
callback with its payload, and Binary/Ping/Pong/Close/Frame items are
ignored apart from logging. -/
theorem c8_read_error_surfaced_as_peer_away (c : WebSocketClient)
    (pre post : List StreamItem)
    (hest : c.isEstablished = true)
    (hstream : c.websocketStream = some (pre ++ StreamItem.readError :: post))
    (hpre : StreamItem.readError ∉ pre) :
    (c.listenForMessages true true).termination =
        ListenTermination.err WebSocketError.AwayError ∧
    (c.listenForMessages true true).invocations = textPayloads pre := by
  simp [WebSocketClient.listenForMessages, hest, hstream,
    listenLoop_reaches_error pre post hpre]

/-- Claim C8 witness: a stream delivering Text "hi", a Ping, then a read
error ends the loop with `AwayError` after exactly one callback invocation
with payload "hi". -/
theorem c8_read_error_surfaced_as_peer_away_witness :
    ((WebSocketClient.mk true
        (some [StreamItem.ok (Message.text "hi"), StreamItem.ok Message.ping,
          StreamItem.readError, StreamItem.ok (Message.text "late")])
        true).listenForMessages true true).termination =
      ListenTermination.err WebSocketError.AwayError ∧
    ((WebSocketClient.mk true
        (some [StreamItem.ok (Message.text "hi"), StreamItem.ok Message.ping,
          StreamItem.readError, StreamItem.ok (Message.text "late")])
        true).listenForMessages true true).invocations = ["hi"] := by
  have h := c8_read_error_surfaced_as_peer_away
    (WebSocketClient.mk true
      (some [StreamItem.ok (Message.text "hi"), StreamItem.ok Message.ping,
        StreamItem.readError, StreamItem.ok (Message.text "late")])
      true)
    [StreamItem.ok (Message.text "hi"), StreamItem.ok Message.ping]
    [StreamItem.ok (Message.text "late")]
    rfl rfl (by decide)
  exact ⟨h.1, by rw [h.2]; decide⟩

/-! ## Webex websocket runtime (src/lib.rs) -/

/-- The fixed device descriptor `Device` (src/types.rs) as built in
`get_device_info_or_create`. -/
structure Device where
  deviceName : String
  deviceType : String
  localizedModel : String
  model : String
  name : String
  systemName : String
  systemVersion : String
deriving Repr, DecidableEq

/-- Modelled from the spec: `DeviceDetails` is referenced from src/lib.rs and
src/service.rs but its declaration is not under src/.  Per the spec's
`DeviceRecord` it carries the identity fields plus the realtime endpoint URL
(`web_socket_url`, a `String` per its use `web_socket_url.as_str()` in
`run`). -/
structure DeviceDetails where
  deviceName : String
  deviceType : String
  localizedModel : String
  model : String
  name : String
  systemName : String
  systemVersion : String
  webSocketUrl : String
deriving Repr, DecidableEq

/-- Modelled from the spec: `DevicesDetails` is the `GET /devices` response;
src/lib.rs iterates `devices.devices`. -/
structure DevicesDetails where
  devices : List DeviceDetails
deriving Repr, DecidableEq

/-- `WebexWebSocketError` as used in src/lib.rs (its declaration is not
under src/ either; only `CreationError` is ever constructed). -/
inductive WebexWebSocketError where
  | CreationError
deriving Repr, DecidableEq

/-- The fixed `device_data` descriptor built at the top of
`get_device_info_or_create` (src/lib.rs lines 534-542). -/
def deviceData : Device :=
  { deviceName := "rust-websocket-client", deviceType := "DESKTOP",
    localizedModel := "rust", model := "rust", name := "rust-spark-client",
    systemName := "rust-spark-client", systemVersion := "0.1" }

/-- Result of `get_device_info_or_create`: the returned `Result`, the
`self.device_info` field afterwards, and whether a creation request was
submitted to the cloud. -/
structure GetDeviceOutcome where
  result : Except WebexWebSocketError DeviceDetails
  deviceInfo : Option DeviceDetails
  createdDevice : Bool
deriving Repr

/-- `WebexWebSocketClient::get_device_info_or_create` (src/lib.rs lines
530-572).  The two remote calls are parameters: `remoteDevices` is what
`get_devices` returns and `createResult` what `create_device` returns.  With
`check_existing.unwrap_or(true)` the device list is scanned in order for the
first device whose `name` equals `device_data.name`; a hit is stored and
returned with no creation request.  Otherwise a creation request is
submitted; `None` becomes `Err(CreationError)`. -/
def getDeviceInfoOrCreate (deviceInfo0 : Option DeviceDetails)
    (checkExisting : Option Bool) (remoteDevices : Option DevicesDetails)
    (createResult : Option DeviceDetails) : GetDeviceOutcome :=
  let found :=
    if checkExisting.getD true then
      match remoteDevices with
      | some devices => devices.devices.find? fun d => d.name == deviceData.name
      | none => none
    else none
  match found with
  | some device =>
    { result := Except.ok device, deviceInfo := some device, createdDevice := false }
  | none =>
    match createResult with
    | none =>
      { result := Except.error WebexWebSocketError.CreationError,
        deviceInfo := deviceInfo0, createdDevice := true }
    | some newDevice =>
      { result := Except.ok newDevice, deviceInfo := some newDevice,
        createdDevice := true }

/-- Claim C9: with `check_existing = Some(true)`, whenever the remote device
list holds a device named `"rust-spark-client"` (the runtime's fixed client
name), resolution returns the first such device, submits no creation
request, and a second call against the unchanged list returns the same
record again — no duplicate device is created. -/
theorem c9_device_resolution_idempotent (devices : DevicesDetails)
    (d : DeviceDetails) (info0 : Option DeviceDetails)
    (create1 create2 : Option DeviceDetails)
    (h : (devices.devices.find? fun dev => dev.name == deviceData.name) = some d) :
    (getDeviceInfoOrCreate info0 (some true) (some devices) create1).result =
        Except.ok d ∧
    (getDeviceInfoOrCreate info0 (some true) (some devices) create1).createdDevice =
        false ∧
    (getDeviceInfoOrCreate
        (getDeviceInfoOrCreate info0 (some true) (some devices) create1).deviceInfo
        (some true) (some devices) create2).result = Except.ok d ∧
    (getDeviceInfoOrCreate
        (getDeviceInfoOrCreate info0 (some true) (some devices) create1).deviceInfo
        (some true) (some devices) create2).createdDevice = false := by
  simp [getDeviceInfoOrCreate, h]

/-- Claim C9 witness: a remote list with a foreign device followed by two
devices named `rust-spark-client`; both calls return the first of the two
and create nothing. -/
theorem c9_device_resolution_idempotent_witness :
    (getDeviceInfoOrCreate none (some true)
        (some (DevicesDetails.mk
          [DeviceDetails.mk "x" "DESKTOP" "x" "x" "other-client" "x" "1" "wss://a",
           DeviceDetails.mk "d1" "DESKTOP" "rust" "rust" "rust-spark-client" "s" "0.1" "wss://b",
           DeviceDetails.mk "d2" "DESKTOP" "rust" "rust" "rust-spark-client" "s" "0.1" "wss://c"]))
        none).result =
      Except.ok (DeviceDetails.mk "d1" "DESKTOP" "rust" "rust" "rust-spark-client" "s" "0.1" "wss://b") ∧
    (getDeviceInfoOrCreate none (some true)
        (some (DevicesDetails.mk
          [DeviceDetails.mk "x" "DESKTOP" "x" "x" "other-client" "x" "1" "wss://a",
           DeviceDetails.mk "d1" "DESKTOP" "rust" "rust" "rust-spark-client" "s" "0.1" "wss://b",
           DeviceDetails.mk "d2" "DESKTOP" "rust" "rust" "rust-spark-client" "s" "0.1" "wss://c"]))
        none).createdDevice = false := by
  have h := c9_device_resolution_idempotent
    (DevicesDetails.mk
      [DeviceDetails.mk "x" "DESKTOP" "x" "x" "other-client" "x" "1" "wss://a",
       DeviceDetails.mk "d1" "DESKTOP" "rust" "rust" "rust-spark-client" "s" "0.1" "wss://b",
       DeviceDetails.mk "d2" "DESKTOP" "rust" "rust" "rust-spark-client" "s" "0.1" "wss://c"])
    (DeviceDetails.mk "d1" "DESKTOP" "rust" "rust" "rust-spark-client" "s" "0.1" "wss://b")
    none none none (by decide)
  exact ⟨h.1, h.2.1⟩

/-- The authorization envelope built in `run` (src/lib.rs lines 486-490):
`id` is the fresh uuid, `type` is `"authorization"` and `data.token` is
`format!("Bearer \x7b\x7d", access_token)`. -/
structure AuthData where
  id : String
  type : String
  token : String
deriving Repr, DecidableEq

/-- The concrete envelope `run` serializes and sends. -/
def authData (uuid accessToken : String) : AuthData :=
  { id := uuid, type := "authorization", token := "Bearer " ++ accessToken }

/-- Frames written by `run`: the only awaited send is the auth Text frame
(the final `send(Message::Close(..))` future is dropped without `.await`, so
no Close frame is actually written). -/
inductive OutFrame where
  | authText (a : AuthData)
deriving Repr, DecidableEq

/-- How the receive loop of `run` (src/lib.rs lines 499-518) exits: a read
error (`Err(_)` arm) or end of stream (`None` arm); every `Ok` frame,
including Close, is only logged and the loop continues. -/
inductive RunLoopExit where
  | serverAway
  | streamEnded
deriving Repr, DecidableEq

/-- The receive loop of `run`, over the stream's items in order. -/
def runLoop : List StreamItem → RunLoopExit
  | [] => RunLoopExit.streamEnded
  | StreamItem.readError :: _ => RunLoopExit.serverAway
  | StreamItem.ok _ :: rest => runLoop rest

/-- Trace of one `run` call: the frames written, the receive-loop exit
(`none` when the call aborts before connecting), and the returned `Result`. -/
structure RunTrace where
  sentFrames : List OutFrame
  loopExit : Option RunLoopExit
  result : Except WebexWebSocketError Unit
deriving Repr

/-- `run` from the point where the websocket handshake has completed
(src/lib.rs lines 485-524): it sends the single auth Text frame, then
immediately enters the receive loop — no frame is read between the two and
no acknowledgement is awaited — and after the loop exits it drains one item
and returns `Ok(())`. -/
def runConnected (uuid accessToken : String) (stream : List StreamItem) : RunTrace :=
  { sentFrames := [OutFrame.authText (authData uuid accessToken)],
    loopExit := some (runLoop stream),
    result := Except.ok () }

/-- `WebexWebSocketClient::run` (src/lib.rs lines 442-525): device
resolution first (when `device_info` is `None`), aborting with
`Err(CreationError)` on failure, then the connected phase. -/
def run (deviceInfo0 : Option DeviceDetails) (remoteDevices : Option DevicesDetails)
    (createResult : Option DeviceDetails) (uuid accessToken : String)
    (stream : List StreamItem) : RunTrace :=
  match deviceInfo0 with
  | none =>
    match (getDeviceInfoOrCreate deviceInfo0 (some true) remoteDevices createResult).result with
    | Except.error _ =>
      { sentFrames := [], loopExit := none,
        result := Except.error WebexWebSocketError.CreationError }
    | Except.ok _ => runConnected uuid accessToken stream
  | some _ => runConnected uuid accessToken stream

/-- Claim C10: whatever the inbound stream holds, the first (and only) frame
`run` sends after the handshake is the JSON authorization envelope with the
fresh uuid as `id`, type `"authorization"` and token `"Bearer <credential>"`,
and the receive loop is entered unconditionally afterwards — in particular
nothing needs to arrive first, so no acknowledgement is awaited. -/
theorem c10_first_frame_is_authorization (uuid accessToken : String)
    (stream : List StreamItem) :
    (runConnected uuid accessToken stream).sentFrames =
      [OutFrame.authText
        { id := uuid, type := "authorization", token := "Bearer " ++ accessToken }] ∧
    (runConnected uuid accessToken stream).loopExit = some (runLoop stream) := by
  constructor <;> rfl

end RustyWebex
